import Mathlib

/-!
Verification development for the status-display renderer `src/display.py`.

The Python module is shallowly embedded.  Python floats are modelled as
exact rationals; the transcendental pieces (`math.sin`, `math.pi`), font
measurement (`font.getlength`) and float formatting (an f-string) are
abstracted as parameters of the embedding (`PyEnv`), because no claim
below depends on their concrete values.  Python's `int(x)` conversion
truncates toward zero (`pyInt`), `//` on ints is floor division
(`Int.fdiv`), and `%` with a positive right operand yields a result in
`[0, divisor)` (`Int.emod`, which agrees with Python there).

Network and host collaborators (`requests.get`, the redis client,
`psutil`) are modelled as explicit inputs: a probe either returns a value
or raises an exception (`Except PyExc`), matching the bare `try/except`
blocks of the source.  Drawing over the shared PIL canvas is modelled as
an emitted list of draw events (`Ev`), and the three module-level
animation counters as an explicit `AnimState` threaded through the
functions that read or assign them.
-/

namespace Display

/-- Python `int(x)` applied to a float value: truncation toward zero
(floor for nonnegative arguments, ceiling for negative ones). -/
def pyInt (q : ℚ) : ℤ := if 0 ≤ q then ⌊q⌋ else ⌈q⌉

/-- An RGB triple as the Python code builds it (plain int components). -/
abbrev RGB := ℤ × ℤ × ℤ

-- Cyberpunk color palette (display.py lines 54-61).
def NEON_PINK : RGB := (255, 16, 240)

def NEON_BLUE : RGB := (0, 240, 255)

def NEON_PURPLE : RGB := (128, 0, 255)

def CYBER_YELLOW : RGB := (255, 255, 0)

def CYBER_GREEN : RGB := (0, 255, 160)

def CYBER_RED : RGB := (255, 0, 80)

def DARK_BG : RGB := (8, 8, 16)

def DARKER_BG : RGB := (4, 4, 8)

/-- Python `tuple(int(c * factor) for c in color)` as used for pulse/alpha scaling. -/
def scaleColor (c : RGB) (f : ℚ) : RGB :=
  (pyInt ((c.1 : ℚ) * f), pyInt ((c.2.1 : ℚ) * f), pyInt ((c.2.2 : ℚ) * f))

/-- The module-level animation variables `animation_frame`, `loading_angle`,
`wave_offset` (display.py lines 63-66).  They start at 0 and are only ever
assigned values already reduced modulo a positive constant, so naturals
model the Python ints faithfully. -/
structure AnimState where
  animation_frame : ℕ
  loading_angle : ℕ
  wave_offset : ℕ
  deriving DecidableEq, Repr

/-- A Python exception value, as caught by the bare `except:` blocks of the
probes (a timeout raised by `requests` is an exception like any other). -/
inductive PyExc where
  | timeout
  | error (msg : String)
  deriving DecidableEq, Repr

/-- The only part of a `requests` response the code inspects. -/
structure HttpResponse where
  status_code : ℤ
  deriving DecidableEq, Repr

/-- display.py lines 160-165.  The HTTP collaborator is a function from
(url, timeout) to a response or a raised exception; the source calls
`requests.get('http://localhost:3000/api/products', timeout=5)`, returns
`response.status_code == 200`, and a bare `except:` coerces every
exception (timeouts included) to `False`. -/
def get_api_status (requests_get : String → ℚ → Except PyExc HttpResponse) : Bool :=
  match requests_get "http://localhost:3000/api/products" 5 with
  | .ok response => response.status_code == 200
  | .error _ => false

/-- display.py lines 167-172.  The redis collaborator takes (host, port, db)
— the source sets no socket timeout — and either answers the ping with a
boolean or raises; a bare `except:` coerces every exception to `False`. -/
def get_redis_status (redis_ping : String → ℕ → ℕ → Except PyExc Bool) : Bool :=
  match redis_ping "localhost" 6379 0 with
  | .ok b => b
  | .error _ => false

/-- CPython `colorsys.hsv_to_rgb`, over exact rationals.  `int(h*6.0)`
truncates toward zero and `i % 6` is Python's floor mod, which for the
positive divisor 6 agrees with `Int.emod`. -/
def hsv_to_rgb (h s v : ℚ) : ℚ × ℚ × ℚ :=
  if s = 0 then (v, v, v) else
  let i0 : ℤ := pyInt (h * 6)
  let f : ℚ := h * 6 - (i0 : ℚ)
  let p : ℚ := v * (1 - s)
  let q : ℚ := v * (1 - s * f)
  let t : ℚ := v * (1 - s * (1 - f))
  let i : ℤ := i0 % 6
  if i = 0 then (v, t, p)
  else if i = 1 then (q, v, p)
  else if i = 2 then (p, v, t)
  else if i = 3 then (p, q, v)
  else if i = 4 then (t, p, v)
  else (v, p, q)

/-- display.py lines 68-72: `hue = (offset % 360) / 360.0`, then
`colorsys.hsv_to_rgb(hue, 1.0, 1.0)` and `tuple(int(x * 255) for x in rgb)`.
Python `offset % 360` is floor mod (nonnegative here), i.e. `Int.emod`. -/
def get_rainbow_color (offset : ℤ) : RGB :=
  let hue : ℚ := ((offset % 360 : ℤ) : ℚ) / 360
  let rgb := hsv_to_rgb hue 1 1
  (pyInt (rgb.1 * 255), pyInt (rgb.2.1 * 255), pyInt (rgb.2.2 * 255))

-- Sanity checks of the numeric model.
example : ((-1 : ℤ).emod 360) = 359 := by decide

example : get_rainbow_color 0 = (255, 0, 0) := by
  norm_num [get_rainbow_color, hsv_to_rgb, pyInt, Int.emod_emod_of_dvd]

example : get_rainbow_color 120 = (0, 255, 0) := by
  norm_num [get_rainbow_color, hsv_to_rgb, pyInt]

/-- The four font handles loaded at startup (display.py lines 42-51). -/
inductive Font where
  | title
  | normal
  | small
  | mono
  deriving DecidableEq, Repr

/-- A single draw call against the shared PIL canvas (or the final
`disp.image` push).  Coordinates are the float/int expressions PIL
receives; `width` is the explicit line/arc width argument, with 0
standing for PIL's default when the source passes none. -/
inductive Ev where
  | line (x1 y1 x2 y2 : ℚ) (color : RGB) (width : ℕ)
  | rect (x1 y1 x2 y2 : ℚ) (fill : RGB)
  | arc (x1 y1 x2 y2 : ℚ) (startAngle endAngle : ℚ) (color : RGB) (width : ℕ)
  | text (x y : ℚ) (str : String) (font : Font) (color : RGB)
  | present
  deriving DecidableEq, Repr

/-- The ambient float collaborators of the module, abstracted: `math.sin`,
`math.pi`, `font.getlength` and the float formatting done by the
f-string `f"{value}%"`.  No claim depends on their concrete values. -/
structure PyEnv where
  sinQ : ℚ → ℚ
  piQ : ℚ
  glen : Font → String → ℚ
  fmtQ : ℚ → String

/-- Lines 182-183: `animation_frame = (animation_frame + 1) % 60` and
`wave_offset = (wave_offset + 2) % width`, the first statements of
`update_display`. -/
def advFrameWave (w : ℕ) (s : AnimState) : AnimState :=
  { s with
    animation_frame := (s.animation_frame + 1) % 60
    wave_offset := (s.wave_offset + 2) % w }

/-- Line 108: `loading_angle = (loading_angle + 6) % 360`, the first
statement of `draw_loading_circle`. -/
def advLoading (s : AnimState) : AnimState :=
  { s with loading_angle := (s.loading_angle + 6) % 360 }

/-- Python `max(0, min(255, c))` on one channel. -/
def clamp255 (c : ℤ) : ℤ := max 0 (min 255 c)

/-- Line 80: `tuple(max(0, min(255, c // 3)) for c in color)`; Python `//`
is floor division. -/
def glowDiv3 (c : RGB) : RGB :=
  (clamp255 (c.1.fdiv 3), clamp255 (c.2.1.fdiv 3), clamp255 (c.2.2.fdiv 3))

/-- Line 113: `tuple(max(0, min(255, c // 4)) for c in color)`. -/
def glowDiv4 (c : RGB) : RGB :=
  (clamp255 (c.1.fdiv 4), clamp255 (c.2.1.fdiv 4), clamp255 (c.2.2.fdiv 4))

/-- Line 128: `(color[0]//8, color[1]//8, color[2]//8)`. -/
def dimDiv8 (c : RGB) : RGB := (c.1.fdiv 8, c.2.1.fdiv 8, c.2.2.fdiv 8)

/-- display.py lines 74-83, `draw_glowing_line`: the main line, then for
`i in range(1, 3)` a pair of parallel glow lines offset by `±i`. -/
def draw_glowing_line (x1 y1 x2 y2 : ℚ) (color : RGB) (width : ℕ)
    (s : AnimState) : AnimState × List Ev :=
  (s, [.line x1 y1 x2 y2 color width,
       .line x1 (y1 + 1) x2 (y2 + 1) (glowDiv3 color) width,
       .line x1 (y1 - 1) x2 (y2 - 1) (glowDiv3 color) width,
       .line x1 (y1 + 2) x2 (y2 + 2) (glowDiv3 color) width,
       .line x1 (y1 - 2) x2 (y2 - 2) (glowDiv3 color) width])

/-- display.py lines 85-103, `draw_cyber_box`: reads (never writes)
`animation_frame` for the corner pulse; draws the 8 corner bracket lines
(`corner_len = 10`) and, when a title is given, its inset strip and text. -/
def draw_cyber_box (env : PyEnv) (x y w h : ℚ) (color : RGB) (title : String)
    (s : AnimState) : AnimState × List Ev :=
  let corner_pulse : ℚ := |env.sinQ ((s.animation_frame : ℚ) * 0.1)| * 0.5 + 0.5
  let corner_color := scaleColor color corner_pulse
  (s,
    [.line (x - 10) y (x + 10) y corner_color 1,
     .line x (y - 10) x (y + 10) corner_color 1,
     .line (x + w - 10) y (x + w + 10) y corner_color 1,
     .line (x + w) (y - 10) (x + w) (y + 10) corner_color 1,
     .line (x - 10) (y + h) (x + 10) (y + h) corner_color 1,
     .line x (y + h - 10) x (y + h + 10) corner_color 1,
     .line (x + w - 10) (y + h) (x + w + 10) (y + h) corner_color 1,
     .line (x + w) (y + h - 10) (x + w) (y + h + 10) corner_color 1]
    ++ (if title ≠ "" then
          [.rect (x + 5) (y - 10) (x + env.glen .small title + 15) (y + 2) DARKER_BG,
           .text (x + 10) (y - 8) title .small color]
        else []))

/-- display.py lines 105-120, `draw_loading_circle`: first advances the
module-level `loading_angle` by 6 mod 360, then draws two glow arcs and
the main arc, all from the advanced sweep angle over `360 * progress`
degrees. -/
def draw_loading_circle (x y size progress : ℚ) (color : RGB)
    (s : AnimState) : AnimState × List Ev :=
  let s1 := advLoading s
  let start_angle : ℚ := (s1.loading_angle : ℚ)
  let end_angle : ℚ := start_angle + 360 * progress
  (s1,
   [.arc (x - size) (y - size) (x + size) (y + size) start_angle end_angle (glowDiv4 color) 4,
    .arc (x - size - 1) (y - size - 1) (x + size + 1) (y + size + 1) start_angle end_angle
      (glowDiv4 color) 4,
    .arc (x - size) (y - size) (x + size) (y + size) start_angle end_angle color 3])

/-- Lines 124-128: the scanline background of `draw_progress_bar` — one
horizontal line per even row, at an eighth of each channel. -/
def draw_progress_bar_bg (x y : ℚ) (w h : ℕ) (color : RGB) : List Ev :=
  (List.range h).filterMap fun (i : ℕ) =>
    if i % 2 = 0 then
      some (.line x (y + (i : ℚ)) (x + (w : ℚ)) (y + (i : ℚ)) (dimDiv8 color) 0)
    else none

/-- Lines 130-136: the filled part of `draw_progress_bar` — when
`progress > 0`, one vertical line per column `i < int(width * progress)`,
brightness-modulated by `sin(i/width * pi) * 0.3 + 0.7`. -/
def draw_progress_bar_fg (env : PyEnv) (x y : ℚ) (w h : ℕ) (progress : ℚ)
    (color : RGB) : List Ev :=
  if 0 < progress then
    (List.range (pyInt ((w : ℚ) * progress)).toNat).map fun (i : ℕ) =>
      let gradient_factor : ℚ := env.sinQ ((i : ℚ) / (w : ℚ) * env.piQ) * 0.3 + 0.7
      .line (x + (i : ℚ)) y (x + (i : ℚ)) (y + (h : ℚ)) (scaleColor color gradient_factor) 0
  else []

/-- display.py lines 122-136, `draw_progress_bar`: scanline background,
then the gradient-shaded filled columns. -/
def draw_progress_bar (env : PyEnv) (x y : ℚ) (w h : ℕ) (progress : ℚ)
    (color : RGB) (s : AnimState) : AnimState × List Ev :=
  (s, draw_progress_bar_bg x y w h color ++ draw_progress_bar_fg env x y w h progress color)

/-- display.py lines 138-158, `draw_status_box`: scanline background over
the 140×50 box, the cyber box chrome, then the pulsing status icon and
label — green `ONLINE` when `status` holds, red `OFFLINE` otherwise
(line 153). -/
def draw_status_box (env : PyEnv) (x y : ℚ) (title : String) (status : Bool)
    (color : RGB) (s : AnimState) : AnimState × List Ev :=
  let scan := (List.range 50).filterMap fun (i : ℕ) =>
    if i % 2 = 0 then
      some (Ev.line x (y + (i : ℚ)) (x + 140) (y + (i : ℚ)) DARKER_BG 0)
    else none
  let pulse : ℚ := |env.sinQ ((s.animation_frame : ℚ) * 0.1)| * 0.3 + 0.7
  let status_color := scaleColor (if status then CYBER_GREEN else CYBER_RED) pulse
  (s, scan ++ (draw_cyber_box env x y 140 50 color title s).2 ++
    [.text (x + 10) (y + 28) (if status then "⬤" else "⭘") .normal status_color,
     .text (x + 35) (y + 28) (if status then "ONLINE" else "OFFLINE") .small status_color])

/-- display.py lines 180-253, `update_display`, on a canvas of size
`w × h`: advances `animation_frame`/`wave_offset`, draws the wave
background and grid, samples both probes, draws the header, the two
status boxes, the metrics section (the three-row loop unrolled: row `y`
values 155, 200, 245), the clock, and pushes the frame (`disp.image`).
Host metrics (`psutil`, lines 174-178) enter as the `cpu`/`memory`/`disk`
parameters and `time.strftime` as `timeStr`. -/
def update_display (env : PyEnv) (w h : ℕ)
    (requests_get : String → ℚ → Except PyExc HttpResponse)
    (redis_ping : String → ℕ → ℕ → Except PyExc Bool)
    (cpu memory disk : ℚ) (timeStr : String) (s : AnimState) : AnimState × List Ev :=
  let s1 := advFrameWave w s
  let bg := (List.range h).map fun (y : ℕ) =>
    let wave : ℚ := env.sinQ (((y : ℚ) + (s1.wave_offset : ℚ)) * 0.05) * 5
    let color_shift : ℚ := |env.sinQ ((y : ℚ) * 0.01 + (s1.animation_frame : ℚ) * 0.1)|
    Ev.line 0 (y : ℚ) (w : ℚ) (y : ℚ)
      (pyInt (8 + wave + color_shift * 4), pyInt (8 + wave), pyInt (16 + wave + color_shift * 8)) 0
  let grid := (List.range ((w + 19) / 20)).map fun (k : ℕ) =>
    let x : ℚ := ((20 * k : ℕ) : ℚ)
    let alpha : ℚ := |env.sinQ ((x + (s1.wave_offset : ℚ)) * 0.05)| * 0.3
    Ev.line x 0 x (h : ℚ) (scaleColor NEON_BLUE alpha) 0
  let api_status := get_api_status requests_get
  let redis_status := get_redis_status redis_ping
  let header := [Ev.rect 0 0 (w : ℚ) 50 DARKER_BG]
    ++ (draw_glowing_line 0 50 (w : ℚ) 50 (get_rainbow_color ((s1.animation_frame : ℤ) * 2)) 2 s1).2
    ++ [Ev.text 10 10 "Product Search API" .title
          (get_rainbow_color ((s1.animation_frame : ℤ) * 2 + 180))]
  let box1 := (draw_status_box env 10 60 "API Status" api_status NEON_BLUE s1).2
  let box2 := (draw_status_box env 160 60 "Redis" redis_status NEON_PURPLE s1).2
  let mhdr := [Ev.text 10 130 "SYSTEM METRICS" .small NEON_PINK]
    ++ (draw_glowing_line 10 150 (10 + env.glen .small "SYSTEM METRICS") 150 NEON_PINK 1 s1).2
  let r1 := draw_loading_circle 35 170 15 (cpu / 100) NEON_BLUE s1
  let row1 := r1.2 ++ [Ev.text 60 155 "CPU" .small NEON_BLUE]
    ++ (draw_progress_bar env 60 175 150 6 (cpu / 100) NEON_BLUE r1.1).2
    ++ [Ev.text 216 155 (env.fmtQ cpu ++ "%") .mono DARKER_BG,
        Ev.text 215 155 (env.fmtQ cpu ++ "%") .mono NEON_BLUE]
  let r2 := draw_loading_circle 35 215 15 (memory / 100) NEON_PURPLE r1.1
  let row2 := r2.2 ++ [Ev.text 60 200 "RAM" .small NEON_PURPLE]
    ++ (draw_progress_bar env 60 220 150 6 (memory / 100) NEON_PURPLE r2.1).2
    ++ [Ev.text 216 200 (env.fmtQ memory ++ "%") .mono DARKER_BG,
        Ev.text 215 200 (env.fmtQ memory ++ "%") .mono NEON_PURPLE]
  let r3 := draw_loading_circle 35 260 15 (disk / 100) CYBER_GREEN r2.1
  let row3 := r3.2 ++ [Ev.text 60 245 "DISK" .small CYBER_GREEN]
    ++ (draw_progress_bar env 60 265 150 6 (disk / 100) CYBER_GREEN r3.1).2
    ++ [Ev.text 216 245 (env.fmtQ disk ++ "%") .mono DARKER_BG,
        Ev.text 215 245 (env.fmtQ disk ++ "%") .mono CYBER_GREEN]
  let time_x : ℚ := ((w / 2 : ℕ) : ℚ) - ((⌊env.glen .mono timeStr / 2⌋ : ℤ) : ℚ)
  let timeEvs := [Ev.text (time_x + 1) ((h : ℚ) - 30) timeStr .mono DARKER_BG,
                  Ev.text time_x ((h : ℚ) - 31) timeStr .mono
                    (get_rainbow_color ((s1.animation_frame : ℤ) * 3))]
  (r3.1, bg ++ grid ++ header ++ box1 ++ box2 ++ mhdr ++ row1 ++ row2 ++ row3
    ++ timeEvs ++ [Ev.present])

/-- The counter effect of one refresh-loop tick with injected drawing
faults.  `update_display`'s fallible operations are grouped by their
effect on the animation counters: group 0 is everything before the
metrics loop (background, grid, sampling, header, status boxes, section
header — none of it writes a counter), groups 1-3 are the three metric
rows (each first advances `loading_angle` inside `draw_loading_circle`,
line 108, before any of its fallible draw calls), and group 4 is the
clock text plus the `disp.image` push.  `fault i` says whether group `i`
raises; a raised exception carries the module-level counter state as it
stands at the raise point, since the globals persist across the
exception. -/
def tickRun (w : ℕ) (fault : ℕ → Bool) (s0 : AnimState) : Except AnimState AnimState :=
  let s := advFrameWave w s0
  if fault 0 then .error s else
  let s := advLoading s
  if fault 1 then .error s else
  let s := advLoading s
  if fault 2 then .error s else
  let s := advLoading s
  if fault 3 then .error s else
  if fault 4 then .error s else .ok s

/-- The counter state a tick leaves behind, whether or not it raised. -/
def stateOf : Except AnimState AnimState → AnimState
  | .ok s => s
  | .error s => s

/-- One iteration of `main`'s `while True` (display.py lines 255-263):
try the tick body; on success `time.sleep(0.05)`, on any caught exception
print and `time.sleep(1)`; either way the loop proceeds with the
persisted counters.  The returned rational is the slept duration. -/
def mainTick (w : ℕ) (fault : ℕ → Bool) (s : AnimState) : AnimState × ℚ :=
  match tickRun w fault s with
  | .ok s' => (s', 0.05)
  | .error s' => (s', 1)

/-- The counter effect of one fault-free tick: one frame/wave advance and
three `loading_angle` advances (one per metric row). -/
def tickOk (w : ℕ) (s : AnimState) : AnimState :=
  advLoading (advLoading (advLoading (advFrameWave w s)))

/-- The counters after `n` fault-free ticks from process start
(all counters zero, lines 63-66). -/
def ticksFromStart (w n : ℕ) : AnimState := (tickOk w)^[n] ⟨0, 0, 0⟩

-- The trace model and the fault model agree on the counter effect of a
-- successful tick.
theorem update_display_fst (env : PyEnv) (w h : ℕ)
    (rg : String → ℚ → Except PyExc HttpResponse)
    (rp : String → ℕ → ℕ → Except PyExc Bool)
    (cpu memory disk : ℚ) (timeStr : String) (s : AnimState) :
    (update_display env w h rg rp cpu memory disk timeStr s).1 = tickOk w s := rfl

theorem tickRun_no_fault (w : ℕ) (s : AnimState) :
    tickRun w (fun _ => false) s = .ok (tickOk w s) := rfl

/-! ## C1: the health probes -/

/-- An HTTP collaborator that answers 204 No Content within the timeout:
a successful 2xx response that is not exactly 200. -/
def apiProbe204 : String → ℚ → Except PyExc HttpResponse := fun _ _ => .ok ⟨204⟩

/-- C1 counterexample: the claim says the API probe returns `true` iff the
backend responds within the timeout with a 2xx-equivalent response; a
204 No Content response refutes it — `get_api_status` demands exactly
200 (display.py line 163) and reports `false`. -/
theorem c1_counterexample :
    ¬ (get_api_status apiProbe204 = true ↔
        ∃ r, apiProbe204 "http://localhost:3000/api/products" 5 = .ok r ∧
          200 ≤ r.status_code ∧ r.status_code < 300) := by
  intro hiff
  have h := hiff.mpr ⟨⟨204⟩, rfl, by norm_num, by norm_num⟩
  have h' : get_api_status apiProbe204 = false := by decide
  rw [h'] at h
  exact Bool.false_ne_true h

/-- C1 (amended): `get_api_status` is `true` iff `requests.get` on the
product URL with timeout 5 returns a response with status code exactly
200, and `get_redis_status` is `true` iff the ping call returns `True`;
every exception outcome (timeouts included) yields `false`, and both
probes are total — no exception propagates to the caller. -/
theorem c1_amended (rg : String → ℚ → Except PyExc HttpResponse)
    (rp : String → ℕ → ℕ → Except PyExc Bool) :
    (get_api_status rg = true ↔
      ∃ r, rg "http://localhost:3000/api/products" 5 = .ok r ∧ r.status_code = 200) ∧
    (get_redis_status rp = true ↔ rp "localhost" 6379 0 = .ok true) := by
  constructor
  · unfold get_api_status
    cases h : rg "http://localhost:3000/api/products" 5 with
    | ok r =>
        simp only [h, beq_iff_eq, Except.ok.injEq]
        constructor
        · intro he; exact ⟨r, rfl, he⟩
        · rintro ⟨r', hr', h200⟩; rw [hr']; exact h200
    | error e => simp [h]
  · unfold get_redis_status
    cases h : rp "localhost" 6379 0 with
    | ok b => cases b <;> simp [h]
    | error e => simp [h]

/-! ## C2: failure isolation of the refresh loop -/

/-- C2: every tick of `main`'s loop proceeds whatever the tick body did:
a successful tick sleeps the configured 0.05 cadence, a tick whose body
raised sleeps the 1-second fallback, and in both cases the loop
continues with the persisted counter state (display.py lines 255-263). -/
theorem c2_refresh_loop (w : ℕ) (fault : ℕ → Bool) (s : AnimState) :
    (∀ s', tickRun w fault s = .ok s' → mainTick w fault s = (s', 0.05)) ∧
    (∀ s', tickRun w fault s = .error s' → mainTick w fault s = (s', 1)) := by
  constructor <;> intro s' h <;> simp [mainTick, h]

/-- C2 witness: with a fault injected in the first drawing group, the
tick raises and the loop sleeps the 1-second fallback with the counters
persisted. -/
theorem c2_witness :
    mainTick 320 (fun i => i == 0) ⟨0, 0, 0⟩ = (⟨1, 0, 2⟩, 1) :=
  (c2_refresh_loop 320 (fun i => i == 0) ⟨0, 0, 0⟩).2 ⟨1, 0, 2⟩ rfl

/-! ## C3: the animation counters after n ticks -/

/-- C3 counterexample: after one fault-free tick from fresh state the
sweep angle is 18, not `(6 * 1) % 360 = 6` — `draw_loading_circle` runs
three times per tick (once per metric row), advancing `loading_angle` by
6 each time. -/
theorem c3_counterexample :
    ticksFromStart 320 1 = ⟨1, 18, 2⟩ ∧
    (ticksFromStart 320 1).loading_angle ≠ (6 * 1) % 360 := by decide

/-- C3 (amended): after n fault-free ticks from fresh state,
`animation_frame = n % 60`, `loading_angle = (18 n) % 360` (three
advances of 6 per tick, one per metric row), and
`wave_offset = (2 n) % w`; replaying the same n always yields the same
triple since the state is a function of n. -/
theorem c3_amended (w n : ℕ) :
    ticksFromStart w n = ⟨n % 60, (18 * n) % 360, (2 * n) % w⟩ := by
  induction n with
  | zero => simp [ticksFromStart]
  | succ n ih =>
      rw [ticksFromStart, Function.iterate_succ_apply', ← ticksFromStart, ih]
      unfold tickOk advLoading advFrameWave
      simp only [AnimState.mk.injEq]
      refine ⟨by omega, by omega, ?_⟩
      calc ((2 * n) % w + 2) % w = (2 * n + 2) % w := (Nat.mod_modEq (2 * n) w).add_right 2
        _ = (2 * (n + 1)) % w := by ring_nf

/-! ## C4: per-tick advancement of the animation state -/

lemma stateOf_tickRun_frame (w : ℕ) (fault : ℕ → Bool) (s : AnimState) :
    (stateOf (tickRun w fault s)).animation_frame = (s.animation_frame + 1) % 60 := by
  unfold tickRun
  split_ifs <;> simp [stateOf, advLoading, advFrameWave]

lemma stateOf_tickRun_wave (w : ℕ) (fault : ℕ → Bool) (s : AnimState) :
    (stateOf (tickRun w fault s)).wave_offset = (s.wave_offset + 2) % w := by
  unfold tickRun
  split_ifs <;> simp [stateOf, advLoading, advFrameWave]

lemma stateOf_tickRun_loading (w : ℕ) (fault : ℕ → Bool) (s : AnimState) :
    ∃ k ≤ 3, stateOf (tickRun w fault s) = advLoading^[k] (advFrameWave w s) ∧
      ((tickRun w fault s).isOk = true → k = 3) := by
  unfold tickRun
  split_ifs
  · exact ⟨0, by omega, rfl, by simp [Except.isOk, Except.toBool]⟩
  · exact ⟨1, by omega, rfl, by simp [Except.isOk, Except.toBool]⟩
  · exact ⟨2, by omega, rfl, by simp [Except.isOk, Except.toBool]⟩
  · exact ⟨3, by omega, rfl, by simp [Except.isOk, Except.toBool]⟩
  · exact ⟨3, by omega, rfl, by simp [Except.isOk, Except.toBool]⟩
  · exact ⟨3, by omega, rfl, fun _ => rfl⟩

/-- C4 (amended): in every tick — faulting or not — `animation_frame`
and `wave_offset` advance exactly once (the advance is the first, never
failing, statement of `update_display`), so after a failing tick plus
its successor they have advanced exactly twice; `loading_angle` however
advances once per `draw_loading_circle` call: between 0 and 3 times in a
faulting tick (0 when the tick raises before the metrics loop), and
exactly 3 times in a successful one. -/
theorem c4_amended (w : ℕ) (fault fault' : ℕ → Bool) (s : AnimState) :
    (stateOf (tickRun w fault s)).animation_frame = (s.animation_frame + 1) % 60 ∧
    (stateOf (tickRun w fault s)).wave_offset = (s.wave_offset + 2) % w ∧
    (∃ k ≤ 3, stateOf (tickRun w fault s) = advLoading^[k] (advFrameWave w s) ∧
      ((tickRun w fault s).isOk = true → k = 3)) ∧
    (stateOf (tickRun w fault' (stateOf (tickRun w fault s)))).animation_frame
      = (s.animation_frame + 2) % 60 ∧
    (stateOf (tickRun w fault' (stateOf (tickRun w fault s)))).wave_offset
      = (s.wave_offset + 4) % w := by
  refine ⟨stateOf_tickRun_frame w fault s, stateOf_tickRun_wave w fault s,
    stateOf_tickRun_loading w fault s, ?_, ?_⟩
  · rw [stateOf_tickRun_frame, stateOf_tickRun_frame]
    omega
  · rw [stateOf_tickRun_wave, stateOf_tickRun_wave]
    calc ((s.wave_offset + 2) % w + 2) % w
        = (s.wave_offset + 2 + 2) % w := (Nat.mod_modEq (s.wave_offset + 2) w).add_right 2
      _ = (s.wave_offset + 4) % w := by ring_nf

/-- C4 counterexample: a tick whose composition raises before the
metrics loop (fault group 0) leaves `loading_angle` untouched — the
animation state is not advanced "exactly once" by that tick. -/
theorem c4_counterexample :
    (tickRun 320 (fun i => i == 0) ⟨0, 0, 0⟩).isOk = false ∧
    stateOf (tickRun 320 (fun i => i == 0) ⟨0, 0, 0⟩) = ⟨1, 0, 2⟩ ∧
    (stateOf (tickRun 320 (fun i => i == 0) ⟨0, 0, 0⟩)).loading_angle ≠ (0 + 6) % 360 := by
  decide

/-- C4 witness: on a fault-free tick the existential of `c4_amended` is
realised with k = 3. -/
theorem c4_witness :
    stateOf (tickRun 320 (fun _ => false) ⟨0, 0, 0⟩)
      = advLoading^[3] (advFrameWave 320 ⟨0, 0, 0⟩) := by
  obtain ⟨k, _, heq, hok⟩ := (c4_amended 320 (fun _ => false) (fun _ => false) ⟨0, 0, 0⟩).2.2.1
  rw [hok rfl] at heq
  exact heq

/-! ## C6: state effects of the drawing primitives -/

/-- The color argument of a draw event (black for the `present` push). -/
def evColor : Ev → RGB
  | .line _ _ _ _ c _ => c
  | .rect _ _ _ _ c => c
  | .arc _ _ _ _ _ _ c _ => c
  | .text _ _ _ _ c => c
  | .present => (0, 0, 0)

/-- The angular span of an arc event (0 for any other event). -/
def evSpan : Ev → ℚ
  | .arc _ _ _ _ st en _ _ => en - st
  | _ => 0

/-- C6 counterexample: `draw_loading_circle` does more than draw — it
writes the module-level `loading_angle` (display.py lines 107-108), so
its call changes program state outside the pixel buffer. -/
theorem c6_counterexample :
    (draw_loading_circle 0 0 15 (1 / 2) NEON_BLUE ⟨0, 0, 0⟩).1 = ⟨0, 6, 0⟩ ∧
    (⟨0, 6, 0⟩ : AnimState) ≠ (⟨0, 0, 0⟩ : AnimState) := ⟨rfl, by decide⟩

/-- C6 (amended): the glowing line, cyber box, progress bar and status
box leave all animation counters unchanged; `draw_loading_circle` leaves
`animation_frame` and `wave_offset` unchanged but advances
`loading_angle` by 6 mod 360 — its only effect outside the canvas. -/
theorem c6_amended (env : PyEnv) (x1 y1 x2 y2 x y w h size progress : ℚ)
    (wd bw bh : ℕ) (color : RGB) (title : String) (status : Bool) (s : AnimState) :
    (draw_glowing_line x1 y1 x2 y2 color wd s).1 = s ∧
    (draw_cyber_box env x y w h color title s).1 = s ∧
    (draw_progress_bar env x y bw bh progress color s).1 = s ∧
    (draw_status_box env x y title status color s).1 = s ∧
    (draw_loading_circle x y size progress color s).1 = advLoading s ∧
    (advLoading s).animation_frame = s.animation_frame ∧
    (advLoading s).wave_offset = s.wave_offset ∧
    (advLoading s).loading_angle = (s.loading_angle + 6) % 360 :=
  ⟨rfl, rfl, rfl, rfl, rfl, rfl, rfl, rfl⟩

/-! ## C7: the progress bar -/

/-- C7 counterexample: the background of `draw_progress_bar` is drawn at
an eighth of each channel (`color // 8`, line 128), not at
`scale(color, 1/3)`: for `NEON_BLUE` that is (0, 30, 31), while a third
would be (0, 80, 85). -/
theorem c7_counterexample :
    ∃ e ∈ draw_progress_bar_bg 0 0 150 6 NEON_BLUE,
      evColor e ≠ scaleColor NEON_BLUE (1 / 3) := by
  refine ⟨.line 0 (0 + (0 : ℕ)) (0 + (150 : ℕ)) (0 + (0 : ℕ)) (dimDiv8 NEON_BLUE) 0, ?_, ?_⟩
  · unfold draw_progress_bar_bg
    refine List.mem_filterMap.mpr ⟨0, by decide, ?_⟩
    norm_num
  · have h1 : dimDiv8 NEON_BLUE = (0, 30, 31) := by decide
    have h2 : scaleColor NEON_BLUE (1 / 3) = (0, 80, 85) := by
      norm_num [scaleColor, NEON_BLUE, pyInt]
    show dimDiv8 NEON_BLUE ≠ scaleColor NEON_BLUE (1 / 3)
    rw [h1, h2]
    decide

/-- The filled region always has exactly `int(width * progress)` columns
(zero when the truncation is nonpositive, matching the `progress > 0`
guard). -/
lemma draw_progress_bar_fg_length (env : PyEnv) (x y : ℚ) (w h : ℕ) (progress : ℚ)
    (color : RGB) :
    (draw_progress_bar_fg env x y w h progress color).length
      = (pyInt ((w : ℚ) * progress)).toNat := by
  unfold draw_progress_bar_fg
  split_ifs with hpos
  · simp
  · have hple : progress ≤ 0 := le_of_not_lt hpos
    have hwp : (w : ℚ) * progress ≤ 0 :=
      mul_nonpos_of_nonneg_of_nonpos (by positivity) hple
    have : pyInt ((w : ℚ) * progress) ≤ 0 := by
      unfold pyInt
      split_ifs with h0
      · have : (w : ℚ) * progress = 0 := le_antisymm hwp h0
        simp [this]
      · exact Int.ceil_le.mpr (by exact_mod_cast hwp)
    simp [Int.toNat_of_nonpos this]

/-- C7 (amended): `draw_progress_bar` draws a scanline background (one
line per even row) at an eighth of each channel of the bar color — not a
third — then, for positive progress, a filled region of exactly
`int(width * progress)` columns, each a full-height vertical line in the
bar color modulated per column by `sin(i/width * pi) * 0.3 + 0.7`; at
progress 0 only the background is drawn, and at progress 1 the filled
region spans the entire width. -/
theorem c7_amended (env : PyEnv) (x y : ℚ) (w h : ℕ) (progress : ℚ) (color : RGB)
    (s : AnimState) :
    (draw_progress_bar env x y w h progress color s).2
      = draw_progress_bar_bg x y w h color ++ draw_progress_bar_fg env x y w h progress color ∧
    (∀ e ∈ draw_progress_bar_bg x y w h color, evColor e = dimDiv8 color) ∧
    (draw_progress_bar_fg env x y w h progress color).length
      = (pyInt ((w : ℚ) * progress)).toNat ∧
    (progress = 0 →
      (draw_progress_bar env x y w h progress color s).2 = draw_progress_bar_bg x y w h color) ∧
    (progress = 1 → (draw_progress_bar_fg env x y w h progress color).length = w) ∧
    (∀ e ∈ draw_progress_bar_fg env x y w h progress color,
      ∃ i : ℕ, (i : ℤ) < pyInt ((w : ℚ) * progress) ∧
        e = .line (x + i) y (x + i) (y + h)
          (scaleColor color (env.sinQ ((i : ℚ) / (w : ℚ) * env.piQ) * 0.3 + 0.7)) 0) := by
  have hlen := draw_progress_bar_fg_length env x y w h progress color
  refine ⟨rfl, ?_, hlen, ?_, ?_, ?_⟩
  · intro e he
    unfold draw_progress_bar_bg at he
    obtain ⟨i, _, hfe⟩ := List.mem_filterMap.mp he
    split_ifs at hfe
    · cases hfe
      rfl
  · intro h0
    unfold draw_progress_bar draw_progress_bar_fg
    rw [h0]
    simp
  · intro h1
    rw [hlen, h1]
    simp [pyInt]
  · intro e he
    unfold draw_progress_bar_fg at he
    split_ifs at he with hpos
    · obtain ⟨i, hi, hfe⟩ := List.mem_map.mp he
      refine ⟨i, ?_, hfe.symm⟩
      rw [List.mem_range] at hi
      omega
    · simp at he

/-- C7 witness: the bounds of `c7_amended` at concrete inputs — at
progress 0 only the background is drawn, and at progress 1 the filled
region has the full 4-column width. -/
theorem c7_witness :
    (draw_progress_bar ⟨fun _ => 0, 0, fun _ _ => 0, fun _ => ""⟩ 0 0 4 6 0 NEON_BLUE
        ⟨0, 0, 0⟩).2
      = draw_progress_bar_bg 0 0 4 6 NEON_BLUE ∧
    (draw_progress_bar_fg ⟨fun _ => 0, 0, fun _ _ => 0, fun _ => ""⟩ 0 0 4 6 1 NEON_BLUE).length
      = 4 :=
  ⟨((c7_amended ⟨fun _ => 0, 0, fun _ _ => 0, fun _ => ""⟩ 0 0 4 6 0 NEON_BLUE
      ⟨0, 0, 0⟩).2.2.2.1) rfl,
   ((c7_amended ⟨fun _ => 0, 0, fun _ _ => 0, fun _ => ""⟩ 0 0 4 6 1 NEON_BLUE
      ⟨0, 0, 0⟩).2.2.2.2.1) rfl⟩

/-! ## C8: the loading arc -/

/-- C8 counterexample: at progress 1/2 every arc drawn by
`draw_loading_circle` — the two glow arcs included — spans 180 degrees;
no full 360-degree background ring is drawn (display.py lines 112-120). -/
theorem c8_counterexample :
    ¬ ∃ e ∈ (draw_loading_circle 0 0 15 (1 / 2) NEON_BLUE ⟨0, 0, 0⟩).2, evSpan e = 360 := by
  rintro ⟨e, he, hspan⟩
  have hev : (draw_loading_circle 0 0 15 (1 / 2) NEON_BLUE ⟨0, 0, 0⟩).2.map evSpan
      = [360 * (1 / 2), 360 * (1 / 2), 360 * (1 / 2)] := by
    simp [draw_loading_circle, evSpan]
  have : evSpan e ∈ (draw_loading_circle 0 0 15 (1 / 2) NEON_BLUE ⟨0, 0, 0⟩).2.map evSpan :=
    List.mem_map_of_mem evSpan he
  rw [hev] at this
  rw [hspan] at this
  norm_num at this

/-- C8 (amended): `draw_loading_circle` first advances the sweep angle,
then draws exactly three arcs — two glow arcs at a clamped quarter of
each channel (radii `size` and `size + 1`, width 4) and the main arc in
the full color (width 3) — all starting at the advanced sweep angle and
all spanning `progress * 360` degrees; there is no full background
ring. -/
theorem c8_amended (x y size progress : ℚ) (color : RGB) (s : AnimState) :
    (draw_loading_circle x y size progress color s).2 =
      [.arc (x - size) (y - size) (x + size) (y + size)
         (((advLoading s).loading_angle : ℚ)) (((advLoading s).loading_angle : ℚ) + 360 * progress)
         (glowDiv4 color) 4,
       .arc (x - size - 1) (y - size - 1) (x + size + 1) (y + size + 1)
         (((advLoading s).loading_angle : ℚ)) (((advLoading s).loading_angle : ℚ) + 360 * progress)
         (glowDiv4 color) 4,
       .arc (x - size) (y - size) (x + size) (y + size)
         (((advLoading s).loading_angle : ℚ)) (((advLoading s).loading_angle : ℚ) + 360 * progress)
         color 3] ∧
    (draw_loading_circle x y size progress color s).2.map evSpan
      = [360 * progress, 360 * progress, 360 * progress] := by
  refine ⟨rfl, ?_⟩
  simp [draw_loading_circle, evSpan]

/-! ## C5: frame composition for a concrete snapshot -/

lemma mem_ud_box1 (env : PyEnv) (w h : ℕ)
    (rg : String → ℚ → Except PyExc HttpResponse)
    (rp : String → ℕ → ℕ → Except PyExc Bool)
    (cpu memory disk : ℚ) (t : String) (s : AnimState) {e : Ev}
    (he : e ∈ (draw_status_box env 10 60 "API Status" (get_api_status rg) NEON_BLUE
      (advFrameWave w s)).2) :
    e ∈ (update_display env w h rg rp cpu memory disk t s).2 := by
  simp only [update_display]
  exact List.mem_append_left _ (List.mem_append_left _ (List.mem_append_left _
    (List.mem_append_left _ (List.mem_append_left _ (List.mem_append_left _
      (List.mem_append_left _ (List.mem_append_right _ he)))))))

lemma mem_ud_box2 (env : PyEnv) (w h : ℕ)
    (rg : String → ℚ → Except PyExc HttpResponse)
    (rp : String → ℕ → ℕ → Except PyExc Bool)
    (cpu memory disk : ℚ) (t : String) (s : AnimState) {e : Ev}
    (he : e ∈ (draw_status_box env 160 60 "Redis" (get_redis_status rp) NEON_PURPLE
      (advFrameWave w s)).2) :
    e ∈ (update_display env w h rg rp cpu memory disk t s).2 := by
  simp only [update_display]
  exact List.mem_append_left _ (List.mem_append_left _ (List.mem_append_left _
    (List.mem_append_left _ (List.mem_append_left _ (List.mem_append_left _
      (List.mem_append_right _ he))))))

lemma mem_ud_row1 (env : PyEnv) (w h : ℕ)
    (rg : String → ℚ → Except PyExc HttpResponse)
    (rp : String → ℕ → ℕ → Except PyExc Bool)
    (cpu memory disk : ℚ) (t : String) (s : AnimState) {e : Ev}
    (he : e ∈ (draw_loading_circle 35 170 15 (cpu / 100) NEON_BLUE (advFrameWave w s)).2
      ∨ e ∈ draw_progress_bar_fg env 60 175 150 6 (cpu / 100) NEON_BLUE) :
    e ∈ (update_display env w h rg rp cpu memory disk t s).2 := by
  simp only [update_display]
  refine List.mem_append_left _ (List.mem_append_left _ (List.mem_append_left _
    (List.mem_append_left _ (List.mem_append_right _ ?_))))
  rcases he with he | he
  · exact List.mem_append_left _ (List.mem_append_left _ (List.mem_append_left _ he))
  · exact List.mem_append_left _ (List.mem_append_right _ (List.mem_append_right _ he))

lemma mem_ud_row2 (env : PyEnv) (w h : ℕ)
    (rg : String → ℚ → Except PyExc HttpResponse)
    (rp : String → ℕ → ℕ → Except PyExc Bool)
    (cpu memory disk : ℚ) (t : String) (s : AnimState) {e : Ev}
    (he : e ∈ (draw_loading_circle 35 215 15 (memory / 100) NEON_PURPLE
        (advLoading (advFrameWave w s))).2
      ∨ e ∈ draw_progress_bar_fg env 60 220 150 6 (memory / 100) NEON_PURPLE) :
    e ∈ (update_display env w h rg rp cpu memory disk t s).2 := by
  simp only [update_display]
  refine List.mem_append_left _ (List.mem_append_left _ (List.mem_append_left _
    (List.mem_append_right _ ?_)))
  rcases he with he | he
  · exact List.mem_append_left _ (List.mem_append_left _ (List.mem_append_left _ he))
  · exact List.mem_append_left _ (List.mem_append_right _ (List.mem_append_right _ he))

lemma mem_ud_row3 (env : PyEnv) (w h : ℕ)
    (rg : String → ℚ → Except PyExc HttpResponse)
    (rp : String → ℕ → ℕ → Except PyExc Bool)
    (cpu memory disk : ℚ) (t : String) (s : AnimState) {e : Ev}
    (he : e ∈ (draw_loading_circle 35 260 15 (disk / 100) CYBER_GREEN
        (advLoading (advLoading (advFrameWave w s)))).2
      ∨ e ∈ draw_progress_bar_fg env 60 265 150 6 (disk / 100) CYBER_GREEN) :
    e ∈ (update_display env w h rg rp cpu memory disk t s).2 := by
  simp only [update_display]
  refine List.mem_append_left _ (List.mem_append_left _ (List.mem_append_right _ ?_))
  rcases he with he | he
  · exact List.mem_append_left _ (List.mem_append_left _ (List.mem_append_left _ he))
  · exact List.mem_append_left _ (List.mem_append_right _ (List.mem_append_right _ he))

/-- C5: composing a frame for the snapshot
`api_up = false, cache_up = true, cpu = 42, mem = 70, disk = 15`:
the API status box shows `OFFLINE` in the pulse-modulated error color
`CYBER_RED` and the Redis box `ONLINE` in the pulse-modulated success
color `CYBER_GREEN`; the three metric arcs are drawn with progress
fractions exactly 42/100, 70/100 and 15/100 (spans `360 * fraction`
from the advanced sweep angles), and the three progress bars fill
exactly `int(150 * fraction)` = 63, 105 and 22 pixel columns, all of
which are drawn into the frame. -/
theorem c5_compose (env : PyEnv) (w h : ℕ) (timeStr : String)
    (rg : String → ℚ → Except PyExc HttpResponse)
    (rp : String → ℕ → ℕ → Except PyExc Bool) (s : AnimState)
    (hapi : get_api_status rg = false) (hcache : get_redis_status rp = true) :
    Ev.text 45 88 "OFFLINE" .small
        (scaleColor CYBER_RED
          (|env.sinQ (((advFrameWave w s).animation_frame : ℚ) * 0.1)| * 0.3 + 0.7))
      ∈ (update_display env w h rg rp 42 70 15 timeStr s).2 ∧
    Ev.text 195 88 "ONLINE" .small
        (scaleColor CYBER_GREEN
          (|env.sinQ (((advFrameWave w s).animation_frame : ℚ) * 0.1)| * 0.3 + 0.7))
      ∈ (update_display env w h rg rp 42 70 15 timeStr s).2 ∧
    Ev.arc 20 155 50 185 (((s.loading_angle + 6) % 360 : ℕ) : ℚ)
        ((((s.loading_angle + 6) % 360 : ℕ) : ℚ) + 360 * (42 / 100)) NEON_BLUE 3
      ∈ (update_display env w h rg rp 42 70 15 timeStr s).2 ∧
    Ev.arc 20 200 50 230 ((((s.loading_angle + 6) % 360 + 6) % 360 : ℕ) : ℚ)
        (((((s.loading_angle + 6) % 360 + 6) % 360 : ℕ) : ℚ) + 360 * (70 / 100)) NEON_PURPLE 3
      ∈ (update_display env w h rg rp 42 70 15 timeStr s).2 ∧
    Ev.arc 20 245 50 275 (((((s.loading_angle + 6) % 360 + 6) % 360 + 6) % 360 : ℕ) : ℚ)
        ((((((s.loading_angle + 6) % 360 + 6) % 360 + 6) % 360 : ℕ) : ℚ) + 360 * (15 / 100))
        CYBER_GREEN 3
      ∈ (update_display env w h rg rp 42 70 15 timeStr s).2 ∧
    ((s.loading_angle + 6) % 360 + 6) % 360 = (s.loading_angle + 12) % 360 ∧
    (((s.loading_angle + 6) % 360 + 6) % 360 + 6) % 360 = (s.loading_angle + 18) % 360 ∧
    (draw_progress_bar_fg env 60 175 150 6 (42 / 100) NEON_BLUE).length = 63 ∧
    (draw_progress_bar_fg env 60 220 150 6 (70 / 100) NEON_PURPLE).length = 105 ∧
    (draw_progress_bar_fg env 60 265 150 6 (15 / 100) CYBER_GREEN).length = 22 ∧
    (∀ e ∈ draw_progress_bar_fg env 60 175 150 6 (42 / 100) NEON_BLUE,
      e ∈ (update_display env w h rg rp 42 70 15 timeStr s).2) ∧
    (∀ e ∈ draw_progress_bar_fg env 60 220 150 6 (70 / 100) NEON_PURPLE,
      e ∈ (update_display env w h rg rp 42 70 15 timeStr s).2) ∧
    (∀ e ∈ draw_progress_bar_fg env 60 265 150 6 (15 / 100) CYBER_GREEN,
      e ∈ (update_display env w h rg rp 42 70 15 timeStr s).2) := by
  refine ⟨?_, ?_, ?_, ?_, ?_, by omega, by omega, ?_, ?_, ?_, ?_, ?_, ?_⟩
  · refine mem_ud_box1 env w h rg rp 42 70 15 timeStr s ?_
    rw [hapi]
    simp only [draw_status_box]
    refine List.mem_append_right _ ?_
    norm_num [List.mem_cons]
  · refine mem_ud_box2 env w h rg rp 42 70 15 timeStr s ?_
    rw [hcache]
    simp only [draw_status_box]
    refine List.mem_append_right _ ?_
    norm_num [List.mem_cons]
  · refine mem_ud_row1 env w h rg rp 42 70 15 timeStr s (Or.inl ?_)
    simp only [draw_loading_circle, advLoading, advFrameWave]
    norm_num [List.mem_cons]
  · refine mem_ud_row2 env w h rg rp 42 70 15 timeStr s (Or.inl ?_)
    simp only [draw_loading_circle, advLoading, advFrameWave]
    norm_num [List.mem_cons]
  · refine mem_ud_row3 env w h rg rp 42 70 15 timeStr s (Or.inl ?_)
    simp only [draw_loading_circle, advLoading, advFrameWave]
    norm_num [List.mem_cons]
  · rw [draw_progress_bar_fg_length]
    norm_num [pyInt]
    decide
  · rw [draw_progress_bar_fg_length]
    norm_num [pyInt]
    decide
  · rw [draw_progress_bar_fg_length]
    norm_num [pyInt]
    decide
  · intro e he
    exact mem_ud_row1 env w h rg rp 42 70 15 timeStr s (Or.inr he)
  · intro e he
    exact mem_ud_row2 env w h rg rp 42 70 15 timeStr s (Or.inr he)
  · intro e he
    exact mem_ud_row3 env w h rg rp 42 70 15 timeStr s (Or.inr he)

/-- A placeholder float environment for witnesses. -/
def env0 : PyEnv := ⟨fun _ => 0, 0, fun _ _ => 0, fun _ => ""⟩

/-- An HTTP collaborator that times out. -/
def rgDown : String → ℚ → Except PyExc HttpResponse := fun _ _ => .error .timeout

/-- A redis collaborator whose ping returns `True`. -/
def rpUp : String → ℕ → ℕ → Except PyExc Bool := fun _ _ _ => .ok true

/-- C5 witness: for a concrete down API / up cache environment from fresh
state, the composed frame contains the red `OFFLINE` status text and the
CPU bar fills 63 columns. -/
theorem c5_witness :
    Ev.text 45 88 "OFFLINE" .small
        (scaleColor CYBER_RED
          (|env0.sinQ (((advFrameWave 320 ⟨0, 0, 0⟩).animation_frame : ℚ) * 0.1)| * 0.3 + 0.7))
      ∈ (update_display env0 320 240 rgDown rpUp 42 70 15 "00:00:00" ⟨0, 0, 0⟩).2 ∧
    (draw_progress_bar_fg env0 60 175 150 6 (42 / 100) NEON_BLUE).length = 63 := by
  have hc := c5_compose env0 320 240 "00:00:00" rgDown rpUp ⟨0, 0, 0⟩ rfl rfl
  exact ⟨hc.1, hc.2.2.2.2.2.2.2.1⟩

/-! ## C9 and C10: the rainbow color function -/

/-- C9: `get_rainbow_color` is periodic with period 360 — the phase is
taken mod 360 (`Int.emod`, matching Python's floor mod) before the
HSV-to-RGB conversion with saturation 1 and value 1, so `rainbow p`
equals `rainbow (p + 360)` for every integer phase, and every phase is
equivalent to its residue mod 360. -/
theorem c9_rainbow_periodic (p : ℤ) :
    get_rainbow_color p = get_rainbow_color (p + 360) ∧
    get_rainbow_color p = get_rainbow_color (p % 360) := by
  unfold get_rainbow_color
  have h1 : (p + 360) % 360 = p % 360 := by omega
  have h2 : p % 360 % 360 = p % 360 := by omega
  rw [h1, h2]
  exact ⟨rfl, rfl⟩

/-- With saturation and value 1 and a hue in `[0, 1)`, the colorsys
conversion returns a triple whose entries are `1`, `0`, and the
fractional part `f` of `h·6` (or `1 - f`), in one of the six sextant
arrangements — in particular some entry is exactly 1. -/
lemma hsv_unit (h : ℚ) (h0 : 0 ≤ h) (_h1 : h < 1) :
    ∃ f : ℚ, 0 ≤ f ∧ f ≤ 1 ∧
      (hsv_to_rgb h 1 1 = (1, f, 0) ∨ hsv_to_rgb h 1 1 = (1 - f, 1, 0) ∨
       hsv_to_rgb h 1 1 = (0, 1, f) ∨ hsv_to_rgb h 1 1 = (0, 1 - f, 1) ∨
       hsv_to_rgb h 1 1 = (f, 0, 1) ∨ hsv_to_rgb h 1 1 = (1, 0, 1 - f)) := by
  have h6 : (0 : ℚ) ≤ h * 6 := by positivity
  have hpy : pyInt (h * 6) = ⌊h * 6⌋ := if_pos h6
  refine ⟨h * 6 - (⌊h * 6⌋ : ℚ), ?_, ?_, ?_⟩
  · have := Int.floor_le (h * 6)
    linarith
  · have := Int.lt_floor_add_one (h * 6)
    linarith
  · unfold hsv_to_rgb
    rw [if_neg (one_ne_zero)]
    dsimp only
    rw [hpy]
    split_ifs
    · exact Or.inl (by simp only [Prod.mk.injEq]; refine ⟨by ring_nf, by ring_nf, by ring_nf⟩)
    · exact Or.inr (Or.inl (by simp only [Prod.mk.injEq]; refine ⟨by ring_nf, by ring_nf, by ring_nf⟩))
    · exact Or.inr (Or.inr (Or.inl
        (by simp only [Prod.mk.injEq]; refine ⟨by ring_nf, by ring_nf, by ring_nf⟩)))
    · exact Or.inr (Or.inr (Or.inr (Or.inl
        (by simp only [Prod.mk.injEq]; refine ⟨by ring_nf, by ring_nf, by ring_nf⟩))))
    · exact Or.inr (Or.inr (Or.inr (Or.inr (Or.inl
        (by simp only [Prod.mk.injEq]; refine ⟨by ring_nf, by ring_nf, by ring_nf⟩)))))
    · exact Or.inr (Or.inr (Or.inr (Or.inr (Or.inr
        (by simp only [Prod.mk.injEq]; refine ⟨by ring_nf, by ring_nf, by ring_nf⟩)))))

/-- Applying `int(x * 255)` to a channel value in `[0, 1]` lands in `[0, 255]`. -/
lemma pyInt_unit_mul (x : ℚ) (h0 : 0 ≤ x) (h1 : x ≤ 1) :
    0 ≤ pyInt (x * 255) ∧ pyInt (x * 255) ≤ 255 := by
  have hx : (0 : ℚ) ≤ x * 255 := by positivity
  unfold pyInt
  rw [if_pos hx]
  refine ⟨Int.floor_nonneg.mpr hx, ?_⟩
  have hle : x * 255 ≤ 255 := by nlinarith
  have hmono := Int.floor_le_floor hle
  have h255 : ⌊(255 : ℚ)⌋ = 255 := by norm_num
  omega

/-- C10: every channel of `get_rainbow_color` is an integer in
`[0, 255]`, and at least one channel is exactly 255 (the value channel
is 1 in every sextant of the conversion, and `int(1 * 255) = 255`). -/
theorem c10_rainbow_channels (offset : ℤ) :
    (0 ≤ (get_rainbow_color offset).1 ∧ (get_rainbow_color offset).1 ≤ 255) ∧
    (0 ≤ (get_rainbow_color offset).2.1 ∧ (get_rainbow_color offset).2.1 ≤ 255) ∧
    (0 ≤ (get_rainbow_color offset).2.2 ∧ (get_rainbow_color offset).2.2 ≤ 255) ∧
    ((get_rainbow_color offset).1 = 255 ∨ (get_rainbow_color offset).2.1 = 255 ∨
      (get_rainbow_color offset).2.2 = 255) := by
  have hk0 : (0 : ℤ) ≤ offset % 360 := Int.emod_nonneg _ (by norm_num)
  have hk1 : offset % 360 < 360 := Int.emod_lt_of_pos _ (by norm_num)
  have hh0 : (0 : ℚ) ≤ ((offset % 360 : ℤ) : ℚ) / 360 := by positivity
  have hh1 : ((offset % 360 : ℤ) : ℚ) / 360 < 1 := by
    rw [div_lt_one (by norm_num)]
    exact_mod_cast hk1
  obtain ⟨f, hf0, hf1, hcase⟩ := hsv_unit _ hh0 hh1
  have h255 : pyInt ((1 : ℚ) * 255) = 255 := by norm_num [pyInt]
  have hzero : pyInt ((0 : ℚ) * 255) = 0 := by norm_num [pyInt]
  have hfB := pyInt_unit_mul f hf0 hf1
  have hgB := pyInt_unit_mul (1 - f) (by linarith) (by linarith)
  simp only [get_rainbow_color]
  rcases hcase with hc | hc | hc | hc | hc | hc <;> rw [hc] <;> dsimp only <;>
    rw [h255] <;> try rw [hzero]
  · exact ⟨⟨by norm_num, by norm_num⟩, hfB, ⟨le_refl 0, by norm_num⟩, Or.inl rfl⟩
  · exact ⟨hgB, ⟨by norm_num, by norm_num⟩, ⟨le_refl 0, by norm_num⟩, Or.inr (Or.inl rfl)⟩
  · exact ⟨⟨le_refl 0, by norm_num⟩, ⟨by norm_num, by norm_num⟩, hfB, Or.inr (Or.inl rfl)⟩
  · exact ⟨⟨le_refl 0, by norm_num⟩, hgB, ⟨by norm_num, by norm_num⟩, Or.inr (Or.inr rfl)⟩
  · exact ⟨hfB, ⟨le_refl 0, by norm_num⟩, ⟨by norm_num, by norm_num⟩, Or.inr (Or.inr rfl)⟩
  · exact ⟨⟨by norm_num, by norm_num⟩, ⟨le_refl 0, by norm_num⟩, hgB, Or.inl rfl⟩

end Display
